import Mathlib

/-!
Verification of the media_manipulator_api job orchestration and conversion
command pipeline.  The Go sources are shallowly embedded: machine integers
become `Int`/`Nat`, `float64` values become `Rat`, Go maps become functions
into `Option`, the wall clock (`time.Now()`) and filesystem probes become
explicit parameters, and fallible operations return `Except`/`Option`.

Sources embedded here:
- src/internal/models/conversion.go  (JobStatus, FileType, ConversionJob, GetFileType)
- src/unnamed/part_003               (JobManager: UpdateJobStatus, UpdateJobProgress,
                                      SendProgressUpdate; current revision)
- src/unnamed/part_002               (JobManager: earlier revision of UpdateJobProgress)
- src/unnamed/part_001               (Converter: validators, argument builders,
                                      atempo decomposition, progress parsing,
                                      exit-code-8 diagnosis)
-/

namespace MediaManipulator

/-- Job lifecycle states, from `JobStatus` constants in conversion.go
(`pending`, `processing`, `completed`, `failed`). -/
inductive JobStatus where
  | pending
  | processing
  | completed
  | failed
  deriving DecidableEq, Repr

/-- Media categories, from `FileType` constants in conversion.go. -/
inductive FileType where
  | image
  | video
  | audio
  | unknown
  deriving DecidableEq, Repr

/-- `OriginalFileInfo` from conversion.go. -/
structure OriginalFileInfo where
  name : String
  size : ℤ
  type : String
  deriving DecidableEq, Repr

/-- `ConversionJob` from conversion.go.  The untyped JSON options payload
(`map[string]interface{}`) is opaque to every registry operation after
creation, so it is modelled by a type parameter `Ω`.  `time.Time` values are
modelled as integers (an abstract clock reading). -/
structure ConversionJob (Ω : Type) where
  id : String
  status : JobStatus
  progress : ℤ
  resultURL : String
  error : String
  originalFile : OriginalFileInfo
  options : Ω
  createdAt : ℤ
  completedAt : Option ℤ
  deriving DecidableEq

/-- The `jobs map[string]*models.ConversionJob` field of `JobManager`. -/
def JobMap (Ω : Type) := String → Option (ConversionJob Ω)

/-- The empty job map (`make(map[string]*models.ConversionJob)`). -/
def JobMap.empty (Ω : Type) : JobMap Ω := fun _ => none

/-- Go map store `jm.jobs[jobID] = job`. -/
def JobMap.insert {Ω : Type} (jm : JobMap Ω) (jobID : String) (job : ConversionJob Ω) :
    JobMap Ω :=
  fun k => if k = jobID then some job else jm k

/-- The single error the registry operations produce:
`fmt.Errorf("job not found")`. -/
inductive JMError where
  | jobNotFound
  deriving DecidableEq, Repr

/-- `JobManager.CreateJob` (part_003 lines 31-46): builds a fresh job record in
state `pending` with progress 0 and stores it.  The generated UUID and the
clock reading are explicit parameters. -/
def CreateJob {Ω : Type} (jm : JobMap Ω) (newID : String) (originalFile : OriginalFileInfo)
    (options : Ω) (now : ℤ) : JobMap Ω × ConversionJob Ω :=
  let job : ConversionJob Ω :=
    { id := newID
      status := .pending
      progress := 0
      resultURL := ""
      error := ""
      originalFile := originalFile
      options := options
      createdAt := now
      completedAt := none }
  (jm.insert newID job, job)

/-- `JobManager.UpdateJobStatus` (part_003 lines 70-93; identical logic in
part_002 lines 60-79): looks the job up, unconditionally overwrites its
status, and when the new status is `completed` or `failed` sets
`CompletedAt := &now`, additionally forcing progress to 100 for `completed`.
There is no guard on the job's previous status. -/
def UpdateJobStatus {Ω : Type} (jm : JobMap Ω) (jobID : String) (status : JobStatus)
    (now : ℤ) : Except JMError (JobMap Ω) :=
  match jm jobID with
  | none => .error .jobNotFound
  | some job =>
    let job := { job with status := status }
    let job :=
      if status = .completed ∨ status = .failed then
        let job := { job with completedAt := some now }
        if status = .completed then { job with progress := 100 } else job
      else job
    .ok (jm.insert jobID job)

/-- `JobManager.UpdateJobProgress` (part_003 lines 95-115, the current
revision): fails with `job not found` if absent; if the job is already
`completed` or `failed` the update is silently skipped (`return nil` without
touching the record); otherwise the progress field is overwritten. -/
def UpdateJobProgress {Ω : Type} (jm : JobMap Ω) (jobID : String) (progress : ℤ) :
    Except JMError (JobMap Ω) :=
  match jm jobID with
  | none => .error .jobNotFound
  | some job =>
    if job.status = .completed ∨ job.status = .failed then
      .ok jm
    else
      .ok (jm.insert jobID { job with progress := progress })

/-- `JobManager.UpdateJobProgress` as it stands in the earlier revision
part_002 lines 81-92: no terminal-state guard, the progress field is always
overwritten.  Kept for comparison; part_003 supersedes it. -/
def UpdateJobProgressLegacy {Ω : Type} (jm : JobMap Ω) (jobID : String) (progress : ℤ) :
    Except JMError (JobMap Ω) :=
  match jm jobID with
  | none => .error .jobNotFound
  | some job => .ok (jm.insert jobID { job with progress := progress })

/-- `JobManager.UpdateJobError` (part_003 lines 131-146): records the error
text, forces status `failed` and stamps the completion time. -/
def UpdateJobError {Ω : Type} (jm : JobMap Ω) (jobID : String) (errorMsg : String)
    (now : ℤ) : Except JMError (JobMap Ω) :=
  match jm jobID with
  | none => .error .jobNotFound
  | some job =>
    .ok (jm.insert jobID
      { job with error := errorMsg, status := .failed, completedAt := some now })

/-- `models.ProgressUpdate` from conversion.go. -/
structure ProgressUpdate where
  jobID : String
  progress : ℤ
  deriving DecidableEq, Repr

/-- Capacity of the progress channel:
`make(chan models.ProgressUpdate, 100)` in `NewJobManager`. -/
def progressChCapacity : ℕ := 100

/-- `JobManager.SendProgressUpdate` (part_003 lines 148-158): a `select` with
a `default` branch on the bounded channel.  The buffered channel is modelled
as a FIFO list; the send succeeds exactly when the buffer holds fewer than
`progressChCapacity` samples, otherwise the sample is dropped and the buffer
is untouched.  The function is total: it never blocks. -/
def SendProgressUpdate (ch : List ProgressUpdate) (jobID : String) (progress : ℤ) :
    List ProgressUpdate :=
  if ch.length < progressChCapacity then
    ch ++ [{ jobID := jobID, progress := progress }]
  else
    ch

/-- `models.GetFileType` (conversion.go lines 88-99 and 453-465, identical in
both revisions).  The Go body evaluates `mimeType[:6]` before any comparison;
for a string shorter than 6 bytes that slice panics with
`slice bounds out of range`, which is modelled as `none`. -/
def GetFileType (mimeType : String) : Option FileType :=
  if 6 ≤ mimeType.length then
    some
      (if String.take mimeType 6 = "image/" then .image
       else if String.take mimeType 6 = "video/" then .video
       else if String.take mimeType 6 = "audio/" then .audio
       else .unknown)
  else
    none

/-! Concrete sample registry used by counterexamples and witnesses. -/

/-- A job that has already reached the terminal state `completed`
(progress 100, completion time stamped at clock 1). -/
def sampleCompletedJob : ConversionJob Unit :=
  { id := "job-1"
    status := .completed
    progress := 100
    resultURL := "/api/download/job-1"
    error := ""
    originalFile := { name := "a.png", size := 10, type := "image/png" }
    options := ()
    createdAt := 0
    completedAt := some 1 }

/-- A registry holding exactly `sampleCompletedJob` under key `job-1`. -/
def sampleRegistry : JobMap Unit :=
  (JobMap.empty Unit).insert "job-1" sampleCompletedJob

end MediaManipulator

namespace MediaManipulator

/-- Looking up the key just stored returns the stored job. -/
theorem JobMap.insert_self {Ω : Type} (jm : JobMap Ω) (k : String) (j : ConversionJob Ω) :
    jm.insert k j k = some j := by
  simp [JobMap.insert]

/-- Claim C1 (counterexample): the registry does permit a transition out of a
terminal state.  On a registry whose only job is `completed`, a subsequent
`UpdateJobStatus` call with `pending` succeeds and changes the stored status
to `pending`. -/
theorem UpdateJobStatus_leaves_terminal_cex :
    (sampleRegistry "job-1").map ConversionJob.status = some JobStatus.completed ∧
    ((UpdateJobStatus sampleRegistry "job-1" JobStatus.pending 5).toOption.bind
        (fun jm => jm "job-1")).map ConversionJob.status = some JobStatus.pending := by
  decide

/-- Claim C1 (amended): `UpdateJobStatus` never guards on the job's current
state.  For any existing job — terminal or not — the requested status is
applied unconditionally, so transitions out of `completed`/`failed` are
permitted; the registry's only terminal-state guard lives in
`UpdateJobProgress`. -/
theorem UpdateJobStatus_unconditional {Ω : Type} (jm : JobMap Ω) (jobID : String)
    (status : JobStatus) (now : ℤ) (job : ConversionJob Ω)
    (hfound : jm jobID = some job) :
    ∃ jm' : JobMap Ω, UpdateJobStatus jm jobID status now = .ok jm' ∧
      ∃ job', jm' jobID = some job' ∧ job'.status = status := by
  simp only [UpdateJobStatus, hfound]
  refine ⟨_, rfl, _, JobMap.insert_self jm jobID _, ?_⟩
  split
  · split <;> rfl
  · rfl

/-- Witness for C1 (amended) at the concrete terminal registry. -/
theorem UpdateJobStatus_unconditional_witness :
    ∃ jm' : JobMap Unit, UpdateJobStatus sampleRegistry "job-1" JobStatus.pending 5 = .ok jm' ∧
      ∃ job', jm' "job-1" = some job' ∧ job'.status = JobStatus.pending :=
  UpdateJobStatus_unconditional sampleRegistry "job-1" JobStatus.pending 5
    sampleCompletedJob (by decide)

/-- Claim C2: for a job already in a terminal state (`completed` or
`failed`), `UpdateJobProgress` succeeds (no error) and returns the registry
unchanged — in particular the stored `Progress` value is untouched.  This is
the part_003 revision of the function, whose terminal guard skips the write. -/
theorem UpdateJobProgress_terminal_noop {Ω : Type} (jm : JobMap Ω) (jobID : String)
    (progress : ℤ) (job : ConversionJob Ω) (hfound : jm jobID = some job)
    (hterm : job.status = .completed ∨ job.status = .failed) :
    UpdateJobProgress jm jobID progress = .ok jm := by
  simp [UpdateJobProgress, hfound, hterm]

/-- Witness for C2: progress 55 pushed at a completed job is silently ignored. -/
theorem UpdateJobProgress_terminal_noop_witness :
    UpdateJobProgress sampleRegistry "job-1" 55 = .ok sampleRegistry :=
  UpdateJobProgress_terminal_noop sampleRegistry "job-1" 55 sampleCompletedJob
    (by decide) (by decide)

/-- Claim C3 (counterexample): a repeated terminal transition is not a no-op
on the completion time.  The sample job completed at clock 1; transitioning
it to `completed` again at clock 2 overwrites `CompletedAt` with 2. -/
theorem UpdateJobStatus_completedAt_refresh_cex :
    (sampleRegistry "job-1").map ConversionJob.completedAt = some (some 1) ∧
    ((UpdateJobStatus sampleRegistry "job-1" JobStatus.completed 2).toOption.bind
        (fun jm => jm "job-1")).map ConversionJob.completedAt = some (some 2) := by
  decide

/-- Claim C3 (amended): a repeated transition to the terminal state the job is
already in succeeds and leaves every field of the record unchanged except
that `CompletedAt` is overwritten with the current clock on every terminal
call (it is not set exactly once), and `Progress` is re-forced to 100 when
the status is `completed`. -/
theorem UpdateJobStatus_terminal_refreshes_time {Ω : Type} (jm : JobMap Ω) (jobID : String)
    (now : ℤ) (job : ConversionJob Ω) (hfound : jm jobID = some job)
    (hterm : job.status = .completed ∨ job.status = .failed) :
    UpdateJobStatus jm jobID job.status now =
      .ok (jm.insert jobID
        { job with
            completedAt := some now
            progress := if job.status = .completed then 100 else job.progress }) := by
  rcases hterm with h | h <;> simp [UpdateJobStatus, hfound, h]

/-- Witness for C3 (amended) at the concrete completed job and clock 2. -/
theorem UpdateJobStatus_terminal_refreshes_time_witness :
    UpdateJobStatus sampleRegistry "job-1" JobStatus.completed 2 =
      .ok (sampleRegistry.insert "job-1"
        { sampleCompletedJob with completedAt := some 2, progress := 100 }) :=
  UpdateJobStatus_terminal_refreshes_time sampleRegistry "job-1" 2 sampleCompletedJob
    (by decide) (by decide)

/-- Claim C9: `SendProgressUpdate` is a total function on the mailbox state
(it never blocks).  Starting from any mailbox within capacity: if the mailbox
is not full the sample is enqueued at the tail, if it is full the sample is
dropped and the mailbox is unchanged, and in both cases the mailbox stays
within the capacity of 100. -/
theorem SendProgressUpdate_bounded_nonblocking (ch : List ProgressUpdate)
    (jobID : String) (progress : ℤ) (hcap : ch.length ≤ progressChCapacity) :
    (ch.length < progressChCapacity →
        SendProgressUpdate ch jobID progress =
          ch ++ [{ jobID := jobID, progress := progress }]) ∧
    (ch.length = progressChCapacity → SendProgressUpdate ch jobID progress = ch) ∧
    (SendProgressUpdate ch jobID progress).length ≤ progressChCapacity := by
  unfold SendProgressUpdate
  refine ⟨fun h => by rw [if_pos h], fun h => by rw [if_neg (by omega)], ?_⟩
  split
  · simp only [List.length_append, List.length_cons, List.length_nil]
    omega
  · exact hcap

/-- Witness for C9 at the empty mailbox. -/
theorem SendProgressUpdate_bounded_nonblocking_witness :
    (([] : List ProgressUpdate).length < progressChCapacity →
        SendProgressUpdate [] "j" 10 = [] ++ [{ jobID := "j", progress := 10 }]) ∧
    (([] : List ProgressUpdate).length = progressChCapacity →
        SendProgressUpdate [] "j" 10 = []) ∧
    (SendProgressUpdate [] "j" 10).length ≤ progressChCapacity :=
  SendProgressUpdate_bounded_nonblocking [] "j" 10 (by decide)

/-- Claim C10: `GetFileType` is not total.  `mimeType[:6]` is evaluated
before any comparison, so every input shorter than six bytes — including the
empty string and the legal MIME type `a/b` — makes the Go function panic
(modelled as `none`), while inputs of length at least six are classified
normally. -/
theorem GetFileType_short_input_panics :
    GetFileType "" = none ∧ GetFileType "a/b" = none ∧
    GetFileType "image/png" = some FileType.image ∧
    GetFileType "video/mp4" = some FileType.video ∧
    GetFileType "audio/mpeg" = some FileType.audio ∧
    GetFileType "text/plain" = some FileType.unknown := by
  decide

end MediaManipulator

namespace MediaManipulator

/-- Helper for loop termination: halving a rational above 2 strictly lowers
its nat-ceiling. -/
theorem ceil_half_lt {q : ℚ} (h : 2 < q) : ⌈q / 2⌉₊ < ⌈q⌉₊ := by
  have h3 : 2 < ⌈q⌉₊ := Nat.lt_ceil.mpr (by exact_mod_cast h)
  have hle : q ≤ (⌈q⌉₊ : ℚ) := Nat.le_ceil q
  have hstep : ⌈q / 2⌉₊ ≤ ⌈q⌉₊ - 1 := by
    apply Nat.ceil_le.mpr
    rw [Nat.cast_sub (by omega)]
    push_cast
    linarith
  omega

/-- The halving loop in `Converter.convertAudio` (part_001 lines 1098-1101):
`for speed > 2.0 { audioFilters = append(audioFilters, "atempo=2.0"); speed /= 2.0 }`.
Returns the emitted stage factors and the residual speed. -/
def halveLoop (speed : ℚ) : List ℚ × ℚ :=
  if h : 2 < speed then
    let r := halveLoop (speed / 2)
    (2 :: r.1, r.2)
  else
    ([], speed)
termination_by ⌈speed⌉₊
decreasing_by exact ceil_half_lt h

/-- The doubling loop in `Converter.convertAudio` (part_001 lines 1102-1105):
`for speed < 0.5 { audioFilters = append(audioFilters, "atempo=0.5"); speed *= 2.0 }`.
For a non-positive speed the Go loop never exits, so the model carries the
positivity hypothesis under which the source is ever invoked (speed is
validated into [0.25, 4.0] first). -/
def doubleLoop (speed : ℚ) (h0 : 0 < speed) : List ℚ × ℚ :=
  if h : speed < 1 / 2 then
    let r := doubleLoop (speed * 2) (by positivity)
    ((1 / 2) :: r.1, r.2)
  else
    ([], speed)
termination_by ⌈speed⁻¹⌉₊
decreasing_by
  have h2 : 2 < speed⁻¹ := by
    rw [← one_div]
    exact (lt_div_iff₀ h0).mpr (by linarith)
  have hrw : (speed * 2)⁻¹ = speed⁻¹ / 2 := by
    rw [mul_inv]
    ring
  rw [hrw]
  exact ceil_half_lt h2

theorem halveLoop_snd_pos : ∀ {speed : ℚ}, 0 < speed → 0 < (halveLoop speed).2 := by
  intro speed
  induction speed using halveLoop.induct with
  | case1 speed h ih =>
    intro h0
    rw [halveLoop]
    simp only [dif_pos h]
    exact ih (by positivity)
  | case2 speed h =>
    intro h0
    rw [halveLoop]
    simpa [dif_neg h] using h0

theorem halveLoop_snd_le : ∀ (speed : ℚ), (halveLoop speed).2 ≤ 2 := by
  intro speed
  induction speed using halveLoop.induct with
  | case1 speed h ih =>
    rw [halveLoop]
    simpa [dif_pos h] using ih
  | case2 speed h =>
    rw [halveLoop]
    simp only [dif_neg h]
    linarith [not_lt.mp h]

theorem halveLoop_fst : ∀ (speed : ℚ), ∀ x ∈ (halveLoop speed).1, x = 2 := by
  intro speed
  induction speed using halveLoop.induct with
  | case1 speed h ih =>
    rw [halveLoop]
    simp only [dif_pos h, List.mem_cons]
    rintro x (rfl | hx)
    · rfl
    · exact ih x hx
  | case2 speed h =>
    rw [halveLoop]
    simp [dif_neg h]

theorem halveLoop_prod : ∀ (speed : ℚ), ((halveLoop speed).1).prod * (halveLoop speed).2 = speed := by
  intro speed
  induction speed using halveLoop.induct with
  | case1 speed h ih =>
    rw [halveLoop]
    simp only [dif_pos h, List.prod_cons]
    rw [mul_assoc, ih]
    ring
  | case2 speed h =>
    rw [halveLoop]
    simp [dif_neg h]

theorem doubleLoop_snd_ge : ∀ (speed : ℚ) (h0 : 0 < speed), 1 / 2 ≤ (doubleLoop speed h0).2 := by
  intro speed h0
  induction speed, h0 using doubleLoop.induct with
  | case1 speed h0 h ih =>
    rw [doubleLoop, dif_pos h]
    exact ih
  | case2 speed h0 h =>
    rw [doubleLoop, dif_neg h]
    exact not_lt.mp h

theorem doubleLoop_snd_le : ∀ (speed : ℚ) (h0 : 0 < speed), speed ≤ 2 → (doubleLoop speed h0).2 ≤ 2 := by
  intro speed h0
  induction speed, h0 using doubleLoop.induct with
  | case1 speed h0 h ih =>
    intro _
    rw [doubleLoop, dif_pos h]
    exact ih (by linarith)
  | case2 speed h0 h =>
    intro hle
    rw [doubleLoop, dif_neg h]
    exact hle

theorem doubleLoop_fst : ∀ (speed : ℚ) (h0 : 0 < speed), ∀ x ∈ (doubleLoop speed h0).1, x = 1 / 2 := by
  intro speed h0
  induction speed, h0 using doubleLoop.induct with
  | case1 speed h0 h ih =>
    rw [doubleLoop, dif_pos h]
    simp only [List.mem_cons]
    rintro x (rfl | hx)
    · rfl
    · exact ih x hx
  | case2 speed h0 h =>
    rw [doubleLoop, dif_neg h]
    simp

theorem doubleLoop_prod : ∀ (speed : ℚ) (h0 : 0 < speed),
    ((doubleLoop speed h0).1).prod * (doubleLoop speed h0).2 = speed := by
  intro speed h0
  induction speed, h0 using doubleLoop.induct with
  | case1 speed h0 h ih =>
    rw [doubleLoop, dif_pos h]
    show (1 / 2 * ((doubleLoop (speed * 2) _).1).prod) * (doubleLoop (speed * 2) _).2 = speed
    rw [mul_assoc, ih]
    ring
  | case2 speed h0 h =>
    rw [doubleLoop, dif_neg h]
    simp

/-- The complete speed-adjustment block of `Converter.convertAudio`
(part_001 lines 1094-1111): guarded by `options.Speed != 1.0`, the halving
loop, the doubling loop, and a final `atempo=%.2f` stage for the residual
speed unless it is exactly 1.  The returned list holds the numeric factors
of the chained `atempo` stages in order of emission. -/
def atempoChain (speed : ℚ) (h0 : 0 < speed) : List ℚ :=
  if speed ≠ 1 then
    let r1 := halveLoop speed
    let r2 := doubleLoop r1.2 (halveLoop_snd_pos h0)
    r1.1 ++ r2.1 ++ (if r2.2 ≠ 1 then [r2.2] else [])
  else
    []

end MediaManipulator

namespace MediaManipulator

/-- Go's `int(x)` conversion from `float64`: truncation toward zero. -/
def intOfFloat (q : ℚ) : ℤ :=
  if 0 ≤ q then ⌊q⌋ else ⌈q⌉

/-- `models.CropArea` (conversion.go). -/
structure CropArea where
  x : ℤ
  y : ℤ
  width : ℤ
  height : ℤ
  deriving DecidableEq, Repr

/-- `models.TrimRange` (conversion.go); the float64 seconds become `Rat`. -/
structure TrimRange where
  startTime : ℚ
  endTime : ℚ
  deriving DecidableEq, Repr

/-- `models.MotionBlur`. -/
structure MotionBlur where
  angle : ℚ
  distance : ℚ
  deriving DecidableEq, Repr

/-- `models.UnsharpMask`. -/
structure UnsharpMask where
  radius : ℚ
  amount : ℚ
  threshold : ℚ
  deriving DecidableEq, Repr

/-- `models.NoiseEffect`. -/
structure NoiseEffect where
  type : String
  amount : ℚ
  deriving DecidableEq, Repr

/-- `models.VisualEffects`; Go pointer fields become `Option`. -/
structure VisualEffects where
  brightness : Option ℤ
  contrast : Option ℤ
  saturation : Option ℤ
  hue : Option ℤ
  gamma : Option ℚ
  exposure : Option ℚ
  shadows : Option ℤ
  highlights : Option ℤ
  gaussianBlur : Option ℤ
  motionBlur : Option MotionBlur
  unsharpMask : Option UnsharpMask
  artistic : Option String
  noise : Option NoiseEffect
  deriving DecidableEq, Repr

/-- `models.Padding`. -/
structure Padding where
  top : ℤ
  bottom : ℤ
  left : ℤ
  right : ℤ
  color : String
  deriving DecidableEq, Repr

/-- `models.Transform`. -/
structure Transform where
  rotation : Option ℚ
  flipHorizontal : Option Bool
  flipVertical : Option Bool
  crop : Option CropArea
  padding : Option Padding
  deriving DecidableEq, Repr

/-- `models.SpeedPoint`. -/
structure SpeedPoint where
  time : ℚ
  speed : ℚ
  deriving DecidableEq, Repr

/-- `models.FrameRateConfig`. -/
structure FrameRateConfig where
  target : Option ℤ
  interpolation : Option Bool
  deriving DecidableEq, Repr

/-- `models.Stabilization`. -/
structure Stabilization where
  enabled : Bool
  shakiness : ℤ
  accuracy : ℤ
  deriving DecidableEq, Repr

/-- `models.TemporalEffects`. -/
structure TemporalEffects where
  variableSpeed : List SpeedPoint
  reverse : Option Bool
  pingPong : Option Bool
  frameRate : Option FrameRateConfig
  stabilization : Option Stabilization
  deriving DecidableEq, Repr

/-- `models.HDRConfig`. -/
structure HDRConfig where
  enabled : Bool
  toneMapping : String
  deriving DecidableEq, Repr

/-- `models.ColorSpace`. -/
structure ColorSpace where
  input : String
  output : String
  deriving DecidableEq, Repr

/-- `models.AdvancedProcessing`. -/
structure AdvancedProcessing where
  deinterlace : Option Bool
  hdr : Option HDRConfig
  colorSpace : Option ColorSpace
  deriving DecidableEq, Repr

/-- `models.VideoConversionOptions` (conversion.go, richer revision). -/
structure VideoConversionOptions where
  format : String
  width : Option ℤ
  height : Option ℤ
  preserveAspectRatio : Bool
  speed : ℚ
  quality : String
  trim : Option TrimRange
  visualEffects : Option VisualEffects
  transform : Option Transform
  temporal : Option TemporalEffects
  advanced : Option AdvancedProcessing
  deriving DecidableEq, Repr

/-- The distinct validation failures of `Converter.validateVideoOptions`
(part_001 lines 609-744), one constructor per `fmt.Errorf` site, in source
order. -/
inductive VideoOptionError where
  | widthNotPositive
  | heightNotPositive
  | widthTooLarge
  | heightTooLarge
  | speedOutOfRange
  | invalidQuality
  | unsupportedFormat
  | trimStartNegative
  | trimEndNegative
  | trimEndNotAfterStart
  | trimTooShort
  | brightnessOutOfRange
  | contrastOutOfRange
  | saturationOutOfRange
  | hueOutOfRange
  | gammaOutOfRange
  | gaussianBlurOutOfRange
  | unsupportedArtistic
  | rotationOutOfRange
  | cropPositionNegative
  | cropDimensionsNotPositive
  | frameRateOutOfRange
  | shakinessOutOfRange
  | accuracyOutOfRange
  | unsupportedToneMapping
  | unsupportedInputColorSpace
  | unsupportedOutputColorSpace
  deriving DecidableEq, Repr

/-- `nil`-guarded range test on an optional int field:
`x != nil && (*x < lo || *x > hi)`. -/
def outOfRangeZ (x : Option ℤ) (lo hi : ℤ) : Bool :=
  match x with
  | none => false
  | some v => decide (v < lo) || decide (hi < v)

/-- `nil`-guarded range test on an optional float field. -/
def outOfRangeQ (x : Option ℚ) (lo hi : ℚ) : Bool :=
  match x with
  | none => false
  | some v => decide (v < lo) || decide (hi < v)

/-- Dimension checks of `validateVideoOptions` (part_001 lines 610-622), in
source order: non-positive width, non-positive height, width above 4096,
height above 4096. -/
def validateVideoDims (width height : Option ℤ) : Option VideoOptionError :=
  if (match width with | some w => decide (w ≤ 0) | none => false) then
    some .widthNotPositive
  else if (match height with | some h => decide (h ≤ 0) | none => false) then
    some .heightNotPositive
  else if (match width with | some w => decide (4096 < w) | none => false) then
    some .widthTooLarge
  else if (match height with | some h => decide (4096 < h) | none => false) then
    some .heightTooLarge
  else
    none

/-- The trim block of `validateVideoOptions` (part_001 lines 641-655), in
source order: negative start, negative end, end not after start, duration
under 0.1 seconds. -/
def validateTrimRange (t : TrimRange) : Option VideoOptionError :=
  if t.startTime < 0 then some .trimStartNegative
  else if t.endTime < 0 then some .trimEndNegative
  else if t.endTime ≤ t.startTime then some .trimEndNotAfterStart
  else if t.endTime - t.startTime < 1 / 10 then some .trimTooShort
  else none

/-- Valid artistic effects map of `validateVideoOptions` (part_001 lines
678-686). -/
def validArtisticEffects : List String :=
  ["none", "oil-painting", "watercolor", "sketch", "emboss", "edge-detection", "posterize"]

/-- The visual-effects block of `validateVideoOptions` (part_001 lines
657-687). -/
def validateVisualEffectsBlock (ve : VisualEffects) : Option VideoOptionError :=
  if outOfRangeZ ve.brightness (-100) 100 then some .brightnessOutOfRange
  else if outOfRangeZ ve.contrast (-100) 100 then some .contrastOutOfRange
  else if outOfRangeZ ve.saturation (-100) 100 then some .saturationOutOfRange
  else if outOfRangeZ ve.hue (-180) 180 then some .hueOutOfRange
  else if outOfRangeQ ve.gamma (1 / 10) 3 then some .gammaOutOfRange
  else if outOfRangeZ ve.gaussianBlur 0 50 then some .gaussianBlurOutOfRange
  else
    match ve.artistic with
    | some a => if validArtisticEffects.contains a then none else some .unsupportedArtistic
    | none => none

/-- The transform block of `validateVideoOptions` (part_001 lines 689-703). -/
def validateTransformBlock (t : Transform) : Option VideoOptionError :=
  if outOfRangeQ t.rotation (-360) 360 then some .rotationOutOfRange
  else
    match t.crop with
    | some c =>
      if c.x < 0 ∨ c.y < 0 then some .cropPositionNegative
      else if c.width ≤ 0 ∨ c.height ≤ 0 then some .cropDimensionsNotPositive
      else none
    | none => none

/-- The temporal block of `validateVideoOptions` (part_001 lines 705-721). -/
def validateTemporalBlock (te : TemporalEffects) : Option VideoOptionError :=
  (match te.frameRate with
   | some fr =>
     match fr.target with
     | some tgt => if tgt < 1 ∨ 120 < tgt then some .frameRateOutOfRange else none
     | none => none
   | none => none) <|>
  (match te.stabilization with
   | some st =>
     if st.enabled then
       if st.shakiness < 1 ∨ 10 < st.shakiness then some .shakinessOutOfRange
       else if st.accuracy < 1 ∨ 15 < st.accuracy then some .accuracyOutOfRange
       else none
     else none
   | none => none)

/-- The advanced block of `validateVideoOptions` (part_001 lines 723-741). -/
def validateAdvancedBlock (adv : AdvancedProcessing) : Option VideoOptionError :=
  (match adv.hdr with
   | some hdr =>
     if ["none", "hable", "reinhard", "mobius"].contains hdr.toneMapping then none
     else some .unsupportedToneMapping
   | none => none) <|>
  (match adv.colorSpace with
   | some cs =>
     if ¬ ["auto", "rec709", "rec2020", "srgb", "p3"].contains cs.input then
       some .unsupportedInputColorSpace
     else if ¬ ["auto", "rec709", "rec2020", "srgb", "p3"].contains cs.output then
       some .unsupportedOutputColorSpace
     else none
   | none => none)

/-- `Converter.validateVideoOptions` (part_001 lines 609-744): the sequential
early-return checks become a left-to-right `<|>` chain — the first failing
check's error is the result, `none` means the option set is accepted. -/
def validateVideoOptions (o : VideoConversionOptions) : Option VideoOptionError :=
  validateVideoDims o.width o.height <|>
  (if o.speed < 1 / 4 ∨ 4 < o.speed then some .speedOutOfRange else none) <|>
  (if ["low", "medium", "high"].contains o.quality then none else some .invalidQuality) <|>
  (if ["mp4", "webm", "avi", "mov", "mkv", "flv", "wmv", "prores", "dnxhd"].contains o.format
     then none else some .unsupportedFormat) <|>
  (match o.trim with | some t => validateTrimRange t | none => none) <|>
  (match o.visualEffects with | some ve => validateVisualEffectsBlock ve | none => none) <|>
  (match o.transform with | some t => validateTransformBlock t | none => none) <|>
  (match o.temporal with | some te => validateTemporalBlock te | none => none) <|>
  (match o.advanced with | some adv => validateAdvancedBlock adv | none => none)

end MediaManipulator

namespace MediaManipulator

/-- One term of the `eq=` color-correction filter expression assembled in
`convertVideo` (part_001 lines 354-416), carrying the computed numeric
payload of the corresponding `fmt.Sprintf`. -/
inductive EqColorPart where
  | brightness (v : ℚ)
  | contrast (v : ℚ)
  | saturation (v : ℚ)
  | gamma (v : ℚ)
  | hue (v : ℤ)
  | exposure (v : ℚ)
  | gammaB (v : ℚ)
  | gammaR (v : ℚ)
  deriving DecidableEq, Repr

/-- One element of the `videoFilters` chain assembled in `convertVideo`
(part_001 lines 329-559); each constructor corresponds to one filter string
with its numeric payloads. -/
inductive VideoFilter where
  | scale (w h : ℤ) (forceAspect : Bool)
  | scaleWidthAuto (w : ℤ)
  | scaleHeightAuto (h : ℤ)
  | eqColor (parts : List EqColorPart)
  | gblur (sigma : ℤ)
  | minterpolate
  | unsharp (msize : ℤ) (amount : ℚ) (threshold : ℤ)
  | noise (amount : ℤ) (temporalNoise : Bool)
  | convolutionOil
  | watercolor
  | sketch
  | emboss
  | edgeDetection
  | posterize
  | rotate (radians : ℚ)
  | hflip
  | vflip
  | crop (w h x y : ℤ)
  | reverse
  | fps (target : ℤ)
  | deshake (x y : ℤ)
  | setpts (factor : ℚ)
  deriving DecidableEq, Repr

/-- The scale/resize filter (part_001 lines 332-347): both dimensions use
`scale=w:h` (with `force_original_aspect_ratio=decrease` when aspect is
preserved), a single dimension auto-computes the other with `-1`. -/
def scaleFilterPart (width height : Option ℤ) (preserveAspectRatio : Bool) :
    List VideoFilter :=
  match width, height with
  | some w, some h => [.scale w h preserveAspectRatio]
  | some w, none => [.scaleWidthAuto w]
  | none, some h => [.scaleHeightAuto h]
  | none, none => []

/-- The `colorFilters` list of `convertVideo` (part_001 lines 354-409), in
source order with the source's arithmetic: brightness scaled by 1/100;
contrast/saturation mapped through `1 + v/100` and clamped below at 0;
gamma passed through; hue in degrees; exposure mapped through `1 + v/100`
clamped below at 0.1; shadow lift `1 - (v/100)*0.3` on gamma_b; highlight
recovery `1 + (v/100)*0.3` on gamma_r. -/
def buildEqColorParts (ve : VisualEffects) : List EqColorPart :=
  (match ve.brightness with
   | some b => if b ≠ 0 then [.brightness ((b : ℚ) / 100)] else []
   | none => []) ++
  (match ve.contrast with
   | some c =>
     if c ≠ 0 then
       let contrast : ℚ := 1 + (c : ℚ) / 100
       let contrast := if contrast < 0 then 0 else contrast
       [.contrast contrast]
     else []
   | none => []) ++
  (match ve.saturation with
   | some s =>
     if s ≠ 0 then
       let saturation : ℚ := 1 + (s : ℚ) / 100
       let saturation := if saturation < 0 then 0 else saturation
       [.saturation saturation]
     else []
   | none => []) ++
  (match ve.gamma with
   | some g => if g ≠ 1 then [.gamma g] else []
   | none => []) ++
  (match ve.hue with
   | some h => if h ≠ 0 then [.hue h] else []
   | none => []) ++
  (match ve.exposure with
   | some e =>
     if e ≠ 0 then
       let exposure : ℚ := 1 + e / 100
       let exposure := if exposure < 1 / 10 then 1 / 10 else exposure
       [.exposure exposure]
     else []
   | none => []) ++
  (match ve.shadows with
   | some s => if s ≠ 0 then [.gammaB (1 - ((s : ℚ) / 100) * (3 / 10))] else []
   | none => []) ++
  (match ve.highlights with
   | some hl => if hl ≠ 0 then [.gammaR (1 + ((hl : ℚ) / 100) * (3 / 10))] else []
   | none => [])

/-- The visual-effects portion of the filter chain (part_001 lines 350-490):
combined `eq=` filter when any color part exists, then gaussian blur, motion
blur, unsharp mask, noise, and artistic effects, in source order.  The
vintage noise amount uses Go's integer division by 2. -/
def buildVisualEffectFilters (ve : VisualEffects) : List VideoFilter :=
  (let parts := buildEqColorParts ve
   if parts ≠ [] then [.eqColor parts] else []) ++
  (match ve.gaussianBlur with
   | some g => if 0 < g then [.gblur g] else []
   | none => []) ++
  (match ve.motionBlur with
   | some mb => if 0 < mb.distance then [.minterpolate] else []
   | none => []) ++
  (match ve.unsharpMask with
   | some um =>
     if 0 < um.amount then
       [.unsharp (intOfFloat um.radius * 2 + 1) (um.amount / 100) (intOfFloat um.threshold)]
     else []
   | none => []) ++
  (match ve.noise with
   | some n =>
     if 0 < n.amount ∧ n.type ≠ "none" then
       if n.type = "film-grain" then [.noise (intOfFloat n.amount) true]
       else if n.type = "digital" then [.noise (intOfFloat n.amount) false]
       else if n.type = "vintage" then [.noise (intOfFloat n.amount / 2) true]
       else []
     else []
   | none => []) ++
  (match ve.artistic with
   | some a =>
     if a ≠ "none" then
       if a = "oil-painting" then [.convolutionOil]
       else if a = "watercolor" then [.watercolor]
       else if a = "sketch" then [.sketch]
       else if a = "emboss" then [.emboss]
       else if a = "edge-detection" then [.edgeDetection]
       else if a = "posterize" then [.posterize]
       else []
     else []
   | none => [])

/-- The transform portion of the filter chain (part_001 lines 493-522):
rotation converted to radians with the source's constant 3.14159, flips,
then crop. -/
def buildTransformFilters (t : Transform) : List VideoFilter :=
  (match t.rotation with
   | some r => if r ≠ 0 then [.rotate (r * (314159 / 100000) / 180)] else []
   | none => []) ++
  (match t.flipHorizontal with
   | some fh => if fh then [.hflip] else []
   | none => []) ++
  (match t.flipVertical with
   | some fv => if fv then [.vflip] else []
   | none => []) ++
  (match t.crop with
   | some c => [.crop c.width c.height c.x c.y]
   | none => [])

/-- The temporal portion of the filter chain (part_001 lines 530-552):
reverse, frame-rate conversion, stabilization. -/
def buildTemporalFilters (te : TemporalEffects) : List VideoFilter :=
  (match te.reverse with
   | some r => if r then [.reverse] else []
   | none => []) ++
  (match te.frameRate with
   | some fr => match fr.target with | some tgt => [.fps tgt] | none => []
   | none => []) ++
  (match te.stabilization with
   | some st => if st.enabled then [.deshake st.shakiness st.accuracy] else []
   | none => [])

/-- The full `videoFilters` chain of `convertVideo` (part_001 lines 329-559):
scale first, then visual effects, transform, temporal, and finally the
`setpts=%.2f*PTS` speed filter with factor `1/speed` when speed differs
from 1. -/
def buildVideoFilters (o : VideoConversionOptions) : List VideoFilter :=
  scaleFilterPart o.width o.height o.preserveAspectRatio ++
  (match o.visualEffects with | some ve => buildVisualEffectFilters ve | none => []) ++
  (match o.transform with | some t => buildTransformFilters t | none => []) ++
  (match o.temporal with | some te => buildTemporalFilters te | none => []) ++
  (if o.speed ≠ 1 then [.setpts (1 / o.speed)] else [])

/-- One token of the ffmpeg argument list built by `convertVideo`.  Literal
tokens keep their text; tokens printed through `fmt.Sprintf("%.2f", ...)`
carry their numeric payload; the single `-vf` value carries the whole filter
chain; the single `-af` value carries the raw atempo factor. -/
inductive VArg where
  | str (s : String)
  | num (q : ℚ)
  | filterChain (fs : List VideoFilter)
  | atempoArg (factor : ℚ)
  deriving DecidableEq, Repr

/-- The trim tokens of `convertVideo` (part_001 lines 313-321): seek to the
start time and set the duration `end - start`, immediately after the input. -/
def videoTrimArgs (trim : Option TrimRange) : List VArg :=
  match trim with
  | some tr => [.str "-ss", .num tr.startTime, .str "-t", .num (tr.endTime - tr.startTime)]
  | none => []

/-- The `-vf` tokens (part_001 lines 561-566): emitted only when the chain is
non-empty, as one joined filter-chain argument. -/
def videoFilterChainArgs (fs : List VideoFilter) : List VArg :=
  if fs ≠ [] then [.str "-vf", .filterChain fs] else []

/-- The audio tokens accompanying a video speed change (part_001 lines
573-579): a single `atempo=%.2f` filter holding the raw speed factor; no
decomposition into stages happens on this path. -/
def videoAfArgs (speed : ℚ) : List VArg :=
  if speed ≠ 1 then [.str "-af", .atempoArg speed] else []

/-- The quality tokens (part_001 lines 581-589). -/
def videoCrfArgs (quality : String) : List VArg :=
  if quality = "low" then [.str "-crf", .str "30"]
  else if quality = "medium" then [.str "-crf", .str "23"]
  else if quality = "high" then [.str "-crf", .str "18"]
  else []

/-- The format-specific codec tokens (part_001 lines 594-600). -/
def videoFormatArgs (format : String) : List VArg :=
  if format = "webm" then [.str "-c:v", .str "libvpx-vp9", .str "-c:a", .str "libopus"]
  else if format = "prores" then [.str "-c:v", .str "prores_ks", .str "-profile:v", .str "2"]
  else []

/-- The complete ffmpeg argument list built by `convertVideo` (part_001
lines 310-602), segment by segment in source order. -/
def buildVideoArgs (o : VideoConversionOptions) (inputPath outputPath : String) :
    List VArg :=
  [.str "-i", .str inputPath] ++
  videoTrimArgs o.trim ++
  videoFilterChainArgs (buildVideoFilters o) ++
  videoAfArgs o.speed ++
  videoCrfArgs o.quality ++
  [.str "-c:v", .str "libx264", .str "-c:a", .str "aac"] ++
  videoFormatArgs o.format ++
  [.str "-y", .str outputPath]

/-- The atempo factors appearing among the built video arguments. -/
def videoAtempoStages (args : List VArg) : List ℚ :=
  args.filterMap fun a =>
    match a with
    | .atempoArg f => some f
    | _ => none

/-- `Converter.convertVideo` up to the point of process execution (part_001
lines 288-606): options failing validation return the error before any
argument list exists (and hence before any process is spawned); otherwise
the built argument list is handed to the process runner. -/
def convertVideo (o : VideoConversionOptions) (inputPath outputPath : String) :
    Except VideoOptionError (List VArg) :=
  match validateVideoOptions o with
  | some e => .error e
  | none => .ok (buildVideoArgs o inputPath outputPath)

end MediaManipulator

namespace MediaManipulator

theorem videoAtempoStages_append (l1 l2 : List VArg) :
    videoAtempoStages (l1 ++ l2) = videoAtempoStages l1 ++ videoAtempoStages l2 :=
  List.filterMap_append l1 l2 _

theorem videoAtempoStages_trimArgs (t : Option TrimRange) :
    videoAtempoStages (videoTrimArgs t) = [] := by
  cases t <;> rfl

theorem videoAtempoStages_filterChainArgs (fs : List VideoFilter) :
    videoAtempoStages (videoFilterChainArgs fs) = [] := by
  unfold videoFilterChainArgs
  split <;> rfl

theorem videoAtempoStages_afArgs (speed : ℚ) :
    videoAtempoStages (videoAfArgs speed) = if speed = 1 then [] else [speed] := by
  by_cases h : speed = 1 <;> simp [videoAfArgs, videoAtempoStages, h]

theorem videoAtempoStages_crfArgs (quality : String) :
    videoAtempoStages (videoCrfArgs quality) = [] := by
  unfold videoCrfArgs
  split_ifs <;> rfl

theorem videoAtempoStages_formatArgs (format : String) :
    videoAtempoStages (videoFormatArgs format) = [] := by
  unfold videoFormatArgs
  split_ifs <;> rfl

/-- A video option set requesting speed 3.0 (inside the validated range
[0.25, 4.0] but outside the atempo sub-range [0.5, 2.0]) and nothing else. -/
def sampleVideoSpeed3Options : VideoConversionOptions :=
  { format := "mp4"
    width := none
    height := none
    preserveAspectRatio := false
    speed := 3
    quality := "medium"
    trim := none
    visualEffects := none
    transform := none
    temporal := none
    advanced := none }

/-- Claim C4 (counterexample): for the validated speed factor 3.0, the video
path's built argument list carries a single atempo stage with the raw factor
3 — not a chain of stages within [0.5, 2.0] — so the claimed decomposition
does not happen for the audio accompanying a video speed change. -/
theorem video_atempo_undecomposed_cex :
    validateVideoOptions sampleVideoSpeed3Options = none ∧
    videoAtempoStages (buildVideoArgs sampleVideoSpeed3Options "in.mp4" "out.mp4") = [3] ∧
    ¬ ((3 : ℚ) ≤ 2) := by
  refine ⟨?_, ?_, by norm_num⟩
  · simp only [validateVideoOptions, sampleVideoSpeed3Options, validateVideoDims,
      outOfRangeZ, outOfRangeQ]
    norm_num
  · unfold buildVideoArgs
    rw [videoAtempoStages_append, videoAtempoStages_append, videoAtempoStages_append,
        videoAtempoStages_append, videoAtempoStages_append, videoAtempoStages_append,
        videoAtempoStages_append]
    rw [videoAtempoStages_trimArgs, videoAtempoStages_filterChainArgs,
        videoAtempoStages_afArgs, videoAtempoStages_crfArgs, videoAtempoStages_formatArgs]
    have h1 : videoAtempoStages [VArg.str "-i", VArg.str "in.mp4"] = [] := rfl
    have h2 : videoAtempoStages [VArg.str "-c:v", VArg.str "libx264",
        VArg.str "-c:a", VArg.str "aac"] = [] := rfl
    have h3 : videoAtempoStages [VArg.str "-y", VArg.str "out.mp4"] = [] := rfl
    rw [h1, h2, h3]
    norm_num [sampleVideoSpeed3Options]

/-- Claim C4 (amended): the standalone audio path decomposes the tempo —
every emitted atempo stage lies in [0.5, 2.0] and the product of the stages
equals the requested factor — while the audio accompanying a video speed
change gets exactly one atempo stage holding the raw factor, with no
decomposition. -/
theorem atempo_decomposition_audio_only (speed : ℚ) (h0 : 0 < speed)
    (o : VideoConversionOptions) (inputPath outputPath : String) :
    (∀ x ∈ atempoChain speed h0, 1 / 2 ≤ x ∧ x ≤ 2) ∧
    (atempoChain speed h0).prod = speed ∧
    videoAtempoStages (buildVideoArgs o inputPath outputPath) =
      (if o.speed = 1 then [] else [o.speed]) := by
  refine ⟨?_, ?_, ?_⟩
  · intro x hx
    unfold atempoChain at hx
    by_cases h : speed = 1
    · simp [h] at hx
    · rw [if_pos h] at hx
      simp only [List.mem_append] at hx
      rcases hx with (hx | hx) | hx
      · have := halveLoop_fst speed x hx
        subst this
        norm_num
      · have := doubleLoop_fst (halveLoop speed).2 (halveLoop_snd_pos h0) x hx
        subst this
        norm_num
      · have hmem : x = (doubleLoop (halveLoop speed).2 (halveLoop_snd_pos h0)).2 := by
          rcases Decidable.em ((doubleLoop (halveLoop speed).2 (halveLoop_snd_pos h0)).2 ≠ 1) with h2 | h2
          · rw [if_pos h2] at hx
            simpa using hx
          · rw [if_neg h2] at hx
            simp at hx
        subst hmem
        exact ⟨doubleLoop_snd_ge _ _,
          doubleLoop_snd_le _ _ (halveLoop_snd_le speed)⟩
  · unfold atempoChain
    by_cases h : speed = 1
    · simp [h]
    · rw [if_pos h]
      simp only [List.prod_append]
      have hp1 := halveLoop_prod speed
      have hp2 := doubleLoop_prod (halveLoop speed).2 (halveLoop_snd_pos h0)
      rcases Decidable.em ((doubleLoop (halveLoop speed).2 (halveLoop_snd_pos h0)).2 ≠ 1) with h2 | h2
      · rw [if_pos h2]
        simp only [List.prod_cons, List.prod_nil, mul_one]
        rw [mul_assoc, hp2, hp1]
      · rw [if_neg h2]
        simp only [not_not] at h2
        simp only [List.prod_nil, mul_one]
        rw [h2, mul_one] at hp2
        rw [hp2, hp1]
  · unfold buildVideoArgs
    rw [videoAtempoStages_append, videoAtempoStages_append, videoAtempoStages_append,
        videoAtempoStages_append, videoAtempoStages_append, videoAtempoStages_append,
        videoAtempoStages_append]
    rw [videoAtempoStages_trimArgs, videoAtempoStages_filterChainArgs,
        videoAtempoStages_afArgs, videoAtempoStages_crfArgs, videoAtempoStages_formatArgs]
    have h1 : videoAtempoStages [VArg.str "-i", VArg.str inputPath] = [] := rfl
    have h2 : videoAtempoStages [VArg.str "-c:v", VArg.str "libx264",
        VArg.str "-c:a", VArg.str "aac"] = [] := rfl
    have h3 : videoAtempoStages [VArg.str "-y", VArg.str outputPath] = [] := rfl
    rw [h1, h2, h3]
    simp

/-- Witness for C4 (amended) at speed 3: the audio chain's stages are
bounded and multiply to 3, the video path emits the single raw stage. -/
theorem atempo_decomposition_audio_only_witness :
    (∀ x ∈ atempoChain 3 (by norm_num), 1 / 2 ≤ x ∧ x ≤ 2) ∧
    (atempoChain 3 (by norm_num)).prod = 3 ∧
    videoAtempoStages (buildVideoArgs sampleVideoSpeed3Options "in.mp4" "out.mp4") =
      (if sampleVideoSpeed3Options.speed = 1 then [] else [sampleVideoSpeed3Options.speed]) :=
  atempo_decomposition_audio_only 3 (by norm_num) sampleVideoSpeed3Options "in.mp4" "out.mp4"

theorem option_orElse_eq_none_iff {α : Type} (a b : Option α) :
    (a <|> b) = none ↔ a = none ∧ b = none := by
  cases a <;> simp

/-- If the whole option-set validation accepts, the trim block accepted. -/
theorem validateVideoOptions_none_trim (o : VideoConversionOptions) (t : TrimRange)
    (htrim : o.trim = some t) (hnone : validateVideoOptions o = none) :
    validateTrimRange t = none := by
  unfold validateVideoOptions at hnone
  simp only [option_orElse_eq_none_iff] at hnone
  obtain ⟨-, -, -, -, h5, -⟩ := hnone
  rw [htrim] at h5
  exact h5

/-- Claim C5: for a video option set carrying a trim range, the conversion
entry point rejects with a validation error — before any argument list is
built, hence before any process spawn — whenever the trim range has
`end ≤ start`, a duration under 0.1 seconds, or a negative bound; otherwise
the trim checks all pass. -/
theorem convertVideo_trim_validation (o : VideoConversionOptions)
    (inputPath outputPath : String) (t : TrimRange) (htrim : o.trim = some t) :
    ((t.endTime ≤ t.startTime ∨ t.endTime - t.startTime < 1 / 10 ∨
        t.startTime < 0 ∨ t.endTime < 0) →
      ∃ e, convertVideo o inputPath outputPath = .error e) ∧
    (¬(t.endTime ≤ t.startTime ∨ t.endTime - t.startTime < 1 / 10 ∨
        t.startTime < 0 ∨ t.endTime < 0) →
      validateTrimRange t = none) := by
  constructor
  · intro hbad
    have htrimerr : validateTrimRange t ≠ none := by
      unfold validateTrimRange
      split_ifs with h1 h2 h3 h4
      · simp
      · simp
      · simp
      · simp
      · rcases hbad with h | h | h | h
        · exact absurd h h3
        · exact absurd h h4
        · exact absurd h h1
        · exact absurd h h2
    cases hval : validateVideoOptions o with
    | some e => exact ⟨e, by simp [convertVideo, hval]⟩
    | none => exact absurd (validateVideoOptions_none_trim o t htrim hval) htrimerr
  · intro hgood
    push_neg at hgood
    obtain ⟨hg1, hg2, hg3, hg4⟩ := hgood
    unfold validateTrimRange
    rw [if_neg (not_lt.mpr hg3), if_neg (not_lt.mpr hg4),
        if_neg (not_le.mpr hg1), if_neg (not_lt.mpr hg2)]

/-- A video option set with the spec scenario's inverted trim range
`start = 5, end = 3`. -/
def sampleBadTrimOptions : VideoConversionOptions :=
  { format := "mp4"
    width := none
    height := none
    preserveAspectRatio := false
    speed := 1
    quality := "medium"
    trim := some { startTime := 5, endTime := 3 }
    visualEffects := none
    transform := none
    temporal := none
    advanced := none }

/-- Witness for C5: the scenario `trim.start = 5, trim.end = 3` is rejected
before any argument list exists. -/
theorem convertVideo_trim_validation_witness :
    ∃ e, convertVideo sampleBadTrimOptions "in.mp4" "out.mp4" = .error e :=
  (convertVideo_trim_validation sampleBadTrimOptions "in.mp4" "out.mp4"
      { startTime := 5, endTime := 3 } rfl).1 (Or.inl (by norm_num))

end MediaManipulator

namespace MediaManipulator

/-- One stderr line of the encoder as seen by `runFFmpegWithProgress`
(part_001 lines 1440-1471) after the two regexes ran: an optional
`Duration: hh:mm:ss.cc` match and an optional `time=hh:mm:ss.cc` match,
each as the four captured two-digit groups. -/
structure ParsedFFmpegLine where
  durationMatch : Option (ℕ × ℕ × ℕ × ℕ)
  timeMatch : Option (ℕ × ℕ × ℕ × ℕ)
  deriving DecidableEq, Repr

/-- `hours*3600 + minutes*60 + seconds + centiseconds/100`, as computed for
both the total duration and the current position (part_001 lines 1448-1452
and 1457-1461). -/
def hmsToSeconds (h m s cs : ℕ) : ℚ :=
  (h : ℚ) * 3600 + (m : ℚ) * 60 + (s : ℚ) + (cs : ℚ) / 100

/-- The running total after the duration-regex step of the loop body of
`runFFmpegWithProgress` (part_001 lines 1447-1453): a `Duration:` match
overwrites the running total, otherwise it is unchanged. -/
def effectiveTotal (totalDuration : ℚ) (line : ParsedFFmpegLine) : ℚ :=
  match line.durationMatch with
  | some (h, m, s, cs) => hmsToSeconds h m s cs
  | none => totalDuration

/-- The loop body of `runFFmpegWithProgress` (part_001 lines 1440-1471) for
one line: after the duration step, a time match emits
`progress := int(currentTime/totalDuration*100)` capped above at 100 — but
only when a positive total duration is already known.  Returns the updated
total and the emitted sample, if any. -/
def processFFmpegLine (totalDuration : ℚ) (line : ParsedFFmpegLine) : ℚ × Option ℤ :=
  let total := effectiveTotal totalDuration line
  match line.timeMatch with
  | some (h, m, s, cs) =>
    if 0 < total then
      let progress := intOfFloat (hmsToSeconds h m s cs / total * 100)
      (total, some (if 100 < progress then 100 else progress))
    else
      (total, none)
  | none => (total, none)

/-- The whole scanner loop: total duration starts at 0, lines are processed
in order, emitted samples are collected. -/
def runFFmpegProgress (lines : List ParsedFFmpegLine) : ℚ × List ℤ :=
  lines.foldl
    (fun st line =>
      let r := processFFmpegLine st.1 line
      (r.1, st.2 ++ r.2.toList))
    (0, [])

theorem hmsToSeconds_nonneg (h m s cs : ℕ) : 0 ≤ hmsToSeconds h m s cs := by
  unfold hmsToSeconds
  positivity

theorem intOfFloat_eq_floor {q : ℚ} (hq : 0 ≤ q) : intOfFloat q = ⌊q⌋ := by
  unfold intOfFloat
  rw [if_pos hq]

theorem processFFmpegLine_no_time {total : ℚ} {line : ParsedFFmpegLine}
    (htm : line.timeMatch = none) :
    processFFmpegLine total line = (effectiveTotal total line, none) := by
  simp only [processFFmpegLine, htm]

theorem processFFmpegLine_time_pos {total : ℚ} {line : ParsedFFmpegLine}
    {hh mm ss cc : ℕ} (htm : line.timeMatch = some (hh, mm, ss, cc))
    (hpos : 0 < effectiveTotal total line) :
    processFFmpegLine total line =
      (effectiveTotal total line,
        some
          (if 100 < intOfFloat (hmsToSeconds hh mm ss cc / effectiveTotal total line * 100)
           then 100
           else intOfFloat (hmsToSeconds hh mm ss cc / effectiveTotal total line * 100))) := by
  simp only [processFFmpegLine, htm]
  rw [if_pos hpos]

theorem processFFmpegLine_time_nonpos {total : ℚ} {line : ParsedFFmpegLine}
    {hh mm ss cc : ℕ} (htm : line.timeMatch = some (hh, mm, ss, cc))
    (hneg : ¬ 0 < effectiveTotal total line) :
    processFFmpegLine total line = (effectiveTotal total line, none) := by
  simp only [processFFmpegLine, htm]
  rw [if_neg hneg]

/-- Claim C6: processing one diagnostic line emits a sample only when a time
match is present and the (possibly just-updated) total duration is positive,
and the emitted percentage is exactly `floor(current/total*100)` clamped to
[0, 100]. -/
theorem processFFmpegLine_progress_spec (total : ℚ) (line : ParsedFFmpegLine) :
    ((processFFmpegLine total line).2 ≠ none →
      0 < effectiveTotal total line ∧ line.timeMatch ≠ none) ∧
    (∀ hh mm ss cc, line.timeMatch = some (hh, mm, ss, cc) →
      0 < effectiveTotal total line →
      (processFFmpegLine total line).2 =
        some (max 0 (min (⌊hmsToSeconds hh mm ss cc / effectiveTotal total line * 100⌋) 100))) := by
  constructor
  · intro hne
    rcases htm : line.timeMatch with _ | ⟨⟨hh, mm, ss, cc⟩⟩
    · rw [processFFmpegLine_no_time htm] at hne
      simp at hne
    · by_cases hpos : 0 < effectiveTotal total line
      · exact ⟨hpos, by simp [htm]⟩
      · rw [processFFmpegLine_time_nonpos htm hpos] at hne
        simp at hne
  · intro hh mm ss cc htm hpos
    rw [processFFmpegLine_time_pos htm hpos]
    have hfrac : (0 : ℚ) ≤ hmsToSeconds hh mm ss cc / effectiveTotal total line * 100 := by
      have hnum := hmsToSeconds_nonneg hh mm ss cc
      positivity
    rw [intOfFloat_eq_floor hfrac]
    have hfl : (0 : ℤ) ≤ ⌊hmsToSeconds hh mm ss cc / effectiveTotal total line * 100⌋ :=
      Int.floor_nonneg.mpr hfrac
    rw [max_eq_right (le_min hfl (by norm_num)), min_def]
    split_ifs <;> first | omega | rfl

/-- Witness for C6: with total 10 and a current position of 5 seconds, the
emitted sample is 50. -/
theorem processFFmpegLine_progress_spec_witness :
    (processFFmpegLine 10 { durationMatch := none, timeMatch := some (0, 0, 5, 0) }).2 =
      some 50 :=
  ((processFFmpegLine_progress_spec 10
        { durationMatch := none, timeMatch := some (0, 0, 5, 0) }).2 0 0 5 0 rfl
      (by norm_num [effectiveTotal])).trans
    (by norm_num [effectiveTotal, hmsToSeconds])

end MediaManipulator

namespace MediaManipulator

/-- `models.ImageConversionOptions` (conversion.go, richer revision). -/
structure ImageConversionOptions where
  format : String
  width : Option ℤ
  height : Option ℤ
  quality : ℤ
  filter : String
  tint : Option String
  crop : Option CropArea
  deriving DecidableEq, Repr

/-- The crop tokens of `convertImage` (part_001 lines 115-121):
`-crop WxH+X+Y` when a crop region is present. -/
def imageCropArgs (crop : Option CropArea) : List String :=
  match crop with
  | some c =>
    ["-crop",
      toString c.width ++ "x" ++ toString c.height ++ "+" ++ toString c.x ++ "+" ++ toString c.y]
  | none => []

/-- The resize tokens of `convertImage` (part_001 lines 123-135), emitted
after cropping: `WxH!` for both dimensions, `Wx` for width only, `xH` for
height only. -/
def imageResizeArgs (width height : Option ℤ) : List String :=
  match width, height with
  | some w, some h => ["-resize", toString w ++ "x" ++ toString h ++ "!"]
  | some w, none => ["-resize", toString w ++ "x"]
  | none, some h => ["-resize", "x" ++ toString h]
  | none, none => []

/-- The filter tokens of `convertImage` (part_001 lines 143-180): the switch
over the filter name, skipped for the empty string and `none`; an
unrecognized name adds nothing. -/
def imageFilterArgs (filter : String) : List String :=
  if filter ≠ "" ∧ filter ≠ "none" then
    if filter = "grayscale" then ["-colorspace", "Gray"]
    else if filter = "sepia" then ["-sepia-tone", "80%"]
    else if filter = "blur" then ["-blur", "0x8"]
    else if filter = "sharpen" then ["-sharpen", "0x1"]
    else if filter = "swirl" then ["-swirl", "90"]
    else if filter = "barrel-distortion" then ["-distort", "Barrel", "0.1 0.0 0.0 1.0"]
    else if filter = "oil-painting" then ["-paint", "4"]
    else if filter = "vintage" then ["-modulate", "120,50,100", "-colorize", "10,5,15"]
    else if filter = "emboss" then ["-emboss", "2"]
    else if filter = "charcoal" then ["-charcoal", "2"]
    else if filter = "sketch" then ["-sketch", "0x20+120"]
    else if filter = "rotate-45º" then ["-rotate", "45"]
    else if filter = "rotate-90º" then ["-rotate", "90"]
    else if filter = "rotate-180º" then ["-rotate", "180"]
    else if filter = "rotate-270º" then ["-rotate", "270"]
    else []
  else []

/-- The quality tokens of `convertImage` (part_001 lines 188-191): only for
`jpg`/`jpeg` output. -/
def imageQualityArgs (format : String) (quality : ℤ) : List String :=
  if format = "jpg" ∨ format = "jpeg" then ["-quality", toString quality] else []

/-- The tint tokens of `convertImage` (part_001 lines 193-197). -/
def imageTintArgs (tint : Option String) : List String :=
  match tint with
  | some t => if t ≠ "" ∧ t ≠ "#000000" then ["-fill", t, "-tint", "30"] else []
  | none => []

/-- The complete ImageMagick `convert` argument list built by `convertImage`
(part_001 lines 112-200): input path, crop, resize, filter, quality, tint,
output path, in source order. -/
def buildImageArgs (o : ImageConversionOptions) (inputPath outputPath : String) :
    List String :=
  [inputPath] ++
  imageCropArgs o.crop ++
  imageResizeArgs o.width o.height ++
  imageFilterArgs o.filter ++
  imageQualityArgs o.format o.quality ++
  imageTintArgs o.tint ++
  [outputPath]

/-- Claim C7: when both a crop region and a resize dimension are present,
the crop token sequence sits strictly before the resize token sequence in
the built arguments — concretely, `-crop` is the token at index 1 and
`-resize` the token at index 3. -/
theorem buildImageArgs_crop_before_resize (o : ImageConversionOptions)
    (inputPath outputPath : String) (c : CropArea) (hcrop : o.crop = some c)
    (hresize : o.width ≠ none ∨ o.height ≠ none) :
    ∃ i j : ℕ, i < j ∧
      (buildImageArgs o inputPath outputPath)[i]? = some "-crop" ∧
      (buildImageArgs o inputPath outputPath)[j]? = some "-resize" := by
  refine ⟨1, 3, by norm_num, ?_, ?_⟩
  · simp [buildImageArgs, hcrop, imageCropArgs]
  · rcases hw : o.width with _ | w <;> rcases hh : o.height with _ | h
    · rcases hresize with hr | hr
      · exact absurd hw hr
      · exact absurd hh hr
    · simp [buildImageArgs, hcrop, imageCropArgs, imageResizeArgs, hw, hh]
    · simp [buildImageArgs, hcrop, imageCropArgs, imageResizeArgs, hw, hh]
    · simp [buildImageArgs, hcrop, imageCropArgs, imageResizeArgs, hw, hh]

/-- An image option set with both a crop region and a width resize. -/
def sampleImageCropResizeOptions : ImageConversionOptions :=
  { format := "png"
    width := some 800
    height := none
    quality := 90
    filter := "grayscale"
    tint := none
    crop := some { x := 10, y := 20, width := 100, height := 200 } }

/-- Witness for C7 at the concrete image option set. -/
theorem buildImageArgs_crop_before_resize_witness :
    ∃ i j : ℕ, i < j ∧
      (buildImageArgs sampleImageCropResizeOptions "in.png" "out.png")[i]? = some "-crop" ∧
      (buildImageArgs sampleImageCropResizeOptions "in.png" "out.png")[j]? = some "-resize" :=
  buildImageArgs_crop_before_resize sampleImageCropResizeOptions "in.png" "out.png"
    { x := 10, y := 20, width := 100, height := 200 } rfl (Or.inl (by decide))

end MediaManipulator

namespace MediaManipulator

/-- Go's `strings.Contains(s, sub)`: `sub` occurs contiguously in `s`. -/
def strContains (s sub : String) : Bool :=
  decide (sub.data <:+: s.data)

/-- Go's `strings.Join(elems, sep)`. -/
def goJoin (sep : String) : List String → String
  | [] => ""
  | [s] => s
  | s :: rest => s ++ sep ++ goJoin sep rest

/-- Go's `filepath.Ext`: the suffix beginning at the final dot in the final
path element, empty when that element has no dot. -/
def goExt (path : String) : String :=
  let seg := path.toList.reverse.takeWhile (fun c => c ≠ '/')
  if seg.contains '.' then
    String.mk ((seg.takeWhile (fun c => c ≠ '.') ++ ['.']).reverse)
  else ""

/-- The per-argument heuristics of `diagnoseExitCode8Error` (part_001 lines
1388-1396): zero-valued scale dimensions and zero blur sigma. -/
def argSuggestions (arg : String) : List String :=
  (if strContains arg "scale=" && (strContains arg ":0" || strContains arg "0:") then
    ["Invalid scale dimensions (width or height is 0)"]
  else []) ++
  (if strContains arg "gblur" && strContains arg "sigma=0" then
    ["Invalid blur sigma value"]
  else [])

/-- `Converter.diagnoseExitCode8Error` (part_001 lines 1362-1413).  The two
filesystem probes — `os.Stat` on the input and the disposable write into the
output directory — are external effects and enter as the boolean parameters
`inputAccessible` and `outputWritable`.  Suggestions accumulate in source
order; with at least one suggestion the message lists them joined by `"; "`,
otherwise a generic fallback is used; both variants append the full
invocation. -/
def diagnoseExitCode8Error (errorMsg : String) (inputAccessible outputWritable : Bool)
    (args : List String) (inputPath outputPath : String) : String :=
  let baseMsg := "FFmpeg parameter/data error (exit code 8): " ++ errorMsg
  let suggestions : List String := []
  let suggestions :=
    if inputAccessible then suggestions else suggestions ++ ["Input file is not accessible"]
  let suggestions :=
    if outputWritable then suggestions else suggestions ++ ["Output directory is not writable"]
  let suggestions := args.foldl (fun acc arg => acc ++ argSuggestions arg) suggestions
  let suggestions :=
    if (goExt inputPath).toLower = (goExt outputPath).toLower then
      suggestions ++ ["Input and output formats are the same - consider changing output format"]
    else suggestions
  if 0 < suggestions.length then
    baseMsg ++ ". Possible issues: " ++ goJoin "; " suggestions ++ ". Command: ffmpeg " ++
      goJoin " " args
  else
    baseMsg ++
      ". This usually indicates invalid filter parameters, corrupted input data, or incompatible format conversion. Command: ffmpeg " ++
      goJoin " " args

/-- A member of a joined list occurs contiguously in the joined string. -/
theorem mem_goJoin_occurs (sep : String) :
    ∀ (l : List String) (x : String), x ∈ l → x.data <:+: (goJoin sep l).data := by
  intro l
  induction l with
  | nil => simp
  | cons s rest ih =>
    intro x hx
    cases rest with
    | nil =>
      rw [List.mem_singleton] at hx
      subst hx
      exact List.infix_rfl
    | cons b bs =>
      rcases List.mem_cons.mp hx with rfl | hx
      · show x.data <:+: (x ++ sep ++ goJoin sep (b :: bs)).data
        rw [String.data_append, String.data_append]
        exact ⟨[], sep.data ++ (goJoin sep (b :: bs)).data, by simp⟩
      · have hrec := ih x hx
        show x.data <:+: (s ++ sep ++ goJoin sep (b :: bs)).data
        rw [String.data_append, String.data_append]
        exact hrec.trans ⟨s.data ++ sep.data, [], by simp⟩

/-- Membership in the accumulator survives the argument-scanning fold. -/
theorem mem_foldl_argSuggestions :
    ∀ (args : List String) (acc : List String) (x : String), x ∈ acc →
      x ∈ args.foldl (fun acc arg => acc ++ argSuggestions arg) acc := by
  intro args
  induction args with
  | nil =>
    intro acc x hx
    simpa using hx
  | cons a as ih =>
    intro acc x hx
    exact ih _ x (List.mem_append_left _ hx)

/-- `strings.Contains` holds as soon as the needle is an infix of the
haystack's character data. -/
theorem strContains_of_data_occurs (s target : String)
    (h : target.data <:+: s.data) : strContains s target = true := by
  unfold strContains
  rwa [decide_eq_true_iff]

/-- Claim C8: whenever the output-directory probe write fails, the diagnosed
exit-code-8 message contains the "Output directory is not writable"
suggestion — for every captured diagnostic text (including one with no
recognizable substrings), every argument list and every path pair. -/
theorem diagnoseExitCode8_unwritable_suggestion (errorMsg : String)
    (inputAccessible : Bool) (args : List String) (inputPath outputPath : String) :
    strContains
      (diagnoseExitCode8Error errorMsg inputAccessible false args inputPath outputPath)
      "Output directory is not writable" = true := by
  have hmem2 : "Output directory is not writable" ∈
      ((if inputAccessible then ([] : List String) else ["Input file is not accessible"]) ++
        ["Output directory is not writable"]) :=
    List.mem_append_right _ (List.mem_singleton.mpr rfl)
  have hmem3 := mem_foldl_argSuggestions args _ _ hmem2
  have hmem4 : "Output directory is not writable" ∈
      (if (goExt inputPath).toLower = (goExt outputPath).toLower then
        (args.foldl (fun acc arg => acc ++ argSuggestions arg)
          ((if inputAccessible then ([] : List String)
            else ["Input file is not accessible"]) ++
            ["Output directory is not writable"])) ++
          ["Input and output formats are the same - consider changing output format"]
      else
        args.foldl (fun acc arg => acc ++ argSuggestions arg)
          ((if inputAccessible then ([] : List String)
            else ["Input file is not accessible"]) ++
            ["Output directory is not writable"])) := by
    split
    · exact List.mem_append_left _ hmem3
    · exact hmem3
  have hlen := List.length_pos.mpr (List.ne_nil_of_mem hmem4)
  simp only [diagnoseExitCode8Error, Bool.false_eq_true, if_false, List.nil_append]
  rw [if_pos hlen]
  apply strContains_of_data_occurs
  refine (mem_goJoin_occurs "; " _ _ hmem4).trans ?_
  simp only [String.data_append]
  have hemb : ∀ (A J C D : List Char), J <:+: ((A ++ J) ++ C) ++ D :=
    fun A J C D => ⟨A, C ++ D, by simp⟩
  exact hemb _ _ _ _

end MediaManipulator
